import Mathlib

/-!
Verification of the tax-forms subsystem (src/server/lib/tax-forms.ts).

The development shallowly embeds the data model and the operations of the
file: JSON payloads as an inductive type, the npm deepmerge default
behaviour, the lodash truncate helper, the threshold predicate, the
contact-resolution algorithm, the legal-document store, and the
orchestrator sendHelloWorksUsTaxForm with explicit outcomes for every
fallible external call. Theorems at the end settle the specification
claims against these definitions.
-/

/-- JSON-like values: the shape of the legal-document data payload. -/
inductive Json where
  | jnull : Json
  | jstr (s : String) : Json
  | jnum (n : Int) : Json
  | jbool (b : Bool) : Json
  | jarr (items : List Json) : Json
  | jobj (entries : List (String × Json)) : Json
deriving Repr

/-- Lookup of a key in a JSON object entry list (first match). -/
def jlookup (k : String) : List (String × Json) → Option Json
  | [] => none
  | (k2, v) :: rest => if k2 = k then some v else jlookup k rest

/-- Fuel-indexed core of the npm deepmerge default behaviour: plain
objects are merged key by key (recursively when the key is present on
both sides), arrays are concatenated, and any other combination is
resolved in favour of the second argument. The fuel only bounds the
nesting depth explored; the wrapper below supplies enough fuel for any
input, since each recursive call descends one object level of the first
argument. -/
def deepMergeGo : Nat → Json → Json → Json
  | 0, _, y => y
  | fuel+1, Json.jobj xs, Json.jobj ys =>
      Json.jobj (xs.map (fun p => match jlookup p.1 ys with
               | some w => (p.1, deepMergeGo fuel p.2 w)
               | none => p) ++ ys.filter (fun q => (jlookup q.1 xs).isNone))
  | _+1, Json.jarr xs, Json.jarr ys => Json.jarr (xs ++ ys)
  | _+1, _, y => y

/-- Nesting depth of a JSON value, used to compute sufficient fuel for
deepMergeGo: the recursion of the merge descends one object level of its
first argument per step. -/
def jdepth : Json → Nat
  | Json.jobj entries => 1 + (entries.attach.map (fun p => jdepth p.1.2)).foldl Nat.max 0
  | Json.jarr items => 1 + (items.attach.map (fun p => jdepth p.1)).foldl Nat.max 0
  | _ => 0
decreasing_by
  all_goals
    obtain ⟨v, hm⟩ := p
    have h1 := List.sizeOf_lt_of_mem hm
    simp only [Json.jobj.sizeOf_spec, Json.jarr.sizeOf_spec] at *
    try (obtain ⟨k, w⟩ := v; simp only [Prod.mk.sizeOf_spec] at *)
    omega

/-- The deepmerge call used by the orchestrator when it stores the
document link: `deepMerge(document.data, newFields)`. -/
def deepMerge (x y : Json) : Json := deepMergeGo (jdepth x + 1) x y

/-- Modelled from the spec: the numeric threshold constants live in
src/server/constants/tax-form, which is not part of the sources; the
spec only states that there are two cutoffs and that the rail-specific
one is the lower of the two. The concrete values are placeholders and no
theorem below depends on them. -/
def US_TAX_FORM_THRESHOLD : Int := 60000

/-- Modelled from the spec: lower cutoff for the PayPal rail; see
US_TAX_FORM_THRESHOLD. -/
def US_TAX_FORM_THRESHOLD_FOR_PAYPAL : Int := 30000

/-- amountsRequireTaxForm from tax-forms.ts: true when either cumulative
amount reaches its threshold. -/
def amountsRequireTaxForm (paypalTotal : Int) (otherTotal : Int) : Bool :=
  otherTotal ≥ US_TAX_FORM_THRESHOLD || paypalTotal ≥ US_TAX_FORM_THRESHOLD_FOR_PAYPAL

/-- lodash truncate with an explicit length option and the default
omission string: a string short enough is returned unchanged, otherwise
the result keeps the first length minus three characters and appends the
three-dot omission, so the result is exactly length characters long. -/
def truncate (s : String) (len : Nat) : String :=
  if s.length ≤ len then s
  else String.mk (s.toList.take (len - 3)) ++ "..."

/-- A collective account or profile: id, names, slug and type, as used
by tax-forms.ts. Absent nullable name fields are modelled as the empty
string, matching JavaScript truthiness tests on them. -/
structure Collective where
  id : Int
  name : String
  legalName : String
  slug : String
  ctype : String
deriving DecidableEq, Repr

/-- An admin user with its linked profile collective. -/
structure AdminUser where
  id : Int
  email : String
  collective : Collective
deriving DecidableEq, Repr

/-- generateParticipantName from tax-forms.ts. -/
def generateParticipantName (account : Collective) (mainUser : AdminUser) : String :=
  if account.legalName ≠ "" then
    truncate account.legalName 64
  else if account.id = mainUser.collective.id then
    truncate account.name 64
  else
    truncate account.slug 30 ++ " (" ++ truncate mainUser.collective.name 30 ++ ")"

/-- An expense row as queried by getMainAdminToContact: submitter,
account charged, and creation time (an integer timestamp). -/
structure Expense where
  id : Int
  createdAt : Int
  FromCollectiveId : Int
  UserId : Int
deriving DecidableEq, Repr

/-- Scan keeping the row with the latest createdAt, preferring the
earlier row on ties: the accumulator is replaced only by a strictly
later row, mirroring a descending-order findOne over the table. -/
def pickLatest : Option Expense → List Expense → Option Expense
  | acc, [] => acc
  | none, e :: rest => pickLatest (some e) rest
  | some b, e :: rest =>
      pickLatest (some (if e.createdAt > b.createdAt then e else b)) rest

/-- The Expense.findOne call of getMainAdminToContact: among the
expenses charged to the account and submitted by one of the admin
users, the one with the latest creation time. -/
def findLatestExpense (accountId : Int) (adminIds : List Int) (expenses : List Expense) :
    Option Expense :=
  pickLatest none
    (expenses.filter (fun e => e.FromCollectiveId == accountId && adminIds.contains e.UserId))

/-- getMainAdminToContact from tax-forms.ts: with more than one admin,
prefer the submitter of the latest matching expense; otherwise (and as
fallback) the first admin of the loaded list, none when the list is
empty. -/
def getMainAdminToContact (account : Collective) (adminUsers : List AdminUser)
    (expenses : List Expense) : Option AdminUser :=
  let viaLatestExpense : Option AdminUser :=
    if adminUsers.length > 1 then
      match findLatestExpense account.id (adminUsers.map (fun u => u.id)) expenses with
      | some latest => adminUsers.find? (fun u => u.id == latest.UserId)
      | none => none
    else none
  match viaLatestExpense with
  | some mainUser => some mainUser
  | none => adminUsers.head?

/-- The single legal document type handled by this subsystem. -/
inductive LegalDocumentType where
  | US_TAX_FORM
deriving DecidableEq, Repr

/-- Lifecycle states of a legal document request. -/
inductive RequestStatus where
  | NOT_REQUESTED
  | REQUESTED
  | RECEIVED
  | ERROR
deriving DecidableEq, Repr

/-- A persisted LegalDocument row, uniquely keyed by document type, year
and account. The isSufficientlyOld flag is modelled from the spec (see
shouldBeRequested); created rows start NOT_REQUESTED with a null data
payload. -/
structure LegalDocument where
  documentType : LegalDocumentType := LegalDocumentType.US_TAX_FORM
  year : Int
  CollectiveId : Int
  requestStatus : RequestStatus := RequestStatus.NOT_REQUESTED
  data : Json := Json.jnull
  isSufficientlyOld : Bool := false
deriving Repr

/-- Modelled from the spec: LegalDocument.shouldBeRequested lives in
src/server/models/LegalDocument, which is not part of the sources. Per
the spec, a document should be requested again only if its status is
ERROR or it is sufficiently old in status NOT_REQUESTED. -/
def LegalDocument.shouldBeRequested (d : LegalDocument) : Bool :=
  d.requestStatus == RequestStatus.ERROR ||
    (d.requestStatus == RequestStatus.NOT_REQUESTED && d.isSufficientlyOld)

/-- Key predicate of the findOrCreate call in saveDocumentStatus: the
unique (US_TAX_FORM, year, account) tuple. -/
def docKeyMatches (year : Int) (accountId : Int) (d : LegalDocument) : Bool :=
  d.documentType == LegalDocumentType.US_TAX_FORM && d.year == year &&
    d.CollectiveId == accountId

/-- Replace the first document matching the key by the image of the
given update function, leaving every other row untouched. -/
def updateDoc (year : Int) (accountId : Int) (f : LegalDocument → LegalDocument) :
    List LegalDocument → List LegalDocument
  | [] => []
  | d :: rest =>
      if docKeyMatches year accountId d then f d :: rest
      else d :: updateDoc year accountId f rest

/-- saveDocumentStatus from tax-forms.ts: findOrCreate the unique
(US_TAX_FORM, year, account) row, then update it with the given request
status and data payload. The update assigns both fields, so the data
payload is replaced, not merged. Returns the updated row and the store. -/
def saveDocumentStatus (account : Collective) (year : Int)
    (requestStatus : RequestStatus) (data : Json) (store : List LegalDocument) :
    LegalDocument × List LegalDocument :=
  match store.find? (docKeyMatches year account.id) with
  | some d =>
      let updated : LegalDocument :=
        { d with requestStatus := requestStatus, data := data }
      (updated, updateDoc year account.id (fun _ => updated) store)
  | none =>
      let created : LegalDocument := { year := year, CollectiveId := account.id }
      let updated : LegalDocument :=
        { created with requestStatus := requestStatus, data := data }
      (updated, store ++ [updated])

/-- A collective together with the legal documents loaded for it, as
returned by the findAll call of the eligibility finder. -/
structure CollectiveWithDocuments where
  collective : Collective
  legalDocuments : List LegalDocument
deriving Repr

/-- findAccountsThatNeedToBeSentTaxForm from tax-forms.ts. The candidate
id set comes from an external aggregation query and is passed in, and
the collectives table stands for the database; the boolean of the result
records whether the follow-up findAll load was issued. The include
clause restricts each loaded account to its documents for the requested
year, and the filter keeps accounts with no such document or with a
document that should be requested again. -/
def findAccountsThatNeedToBeSentTaxForm (year : Int) (collectiveIds : List Int)
    (collectives : List CollectiveWithDocuments) :
    List CollectiveWithDocuments × Bool :=
  if collectiveIds.isEmpty then ([], false)
  else
    let loaded := (collectives.filter
        (fun c => collectiveIds.contains c.collective.id)).map
      (fun c => { c with legalDocuments := c.legalDocuments.filter (fun d => d.year == year) })
    (loaded.filter
      (fun c => c.legalDocuments.isEmpty ||
        c.legalDocuments.any (fun d => d.shouldBeRequested)), true)

/-- A signing step of a workflow instance: step id and unauthenticated
URL. -/
structure WorkflowStep where
  step : String
  url : String
deriving DecidableEq, Repr

/-- A HelloWorks workflow instance: id and ordered signing steps. -/
structure WorkflowInstance where
  id : String
  steps : List WorkflowStep
deriving DecidableEq, Repr

/-- JSON snapshot of a signing step as stored in the document data. -/
def stepToJson (s : WorkflowStep) : Json :=
  Json.jobj [("step", Json.jstr s.step), ("url", Json.jstr s.url)]

/-- JSON snapshot of a workflow instance as stored in the document
data for debugging purposes. -/
def instanceToJson (inst : WorkflowInstance) : Json :=
  Json.jobj [("id", Json.jstr inst.id), ("steps", Json.jarr (inst.steps.map stepToJson))]

/-- A thrown JavaScript error: message and stack trace. -/
structure JsError where
  message : String
  stack : String
deriving DecidableEq, Repr

/-- The data payload persisted with status ERROR by the catch block of
sendHelloWorksUsTaxForm. -/
def errorToJson (e : JsError) : Json :=
  Json.jobj [("error",
    Json.jobj [("message", Json.jstr e.message), ("stack", Json.jstr e.stack)])]

/-- The data payload persisted with status REQUESTED right after the
workflow instance is created. -/
def requestedData (inst : WorkflowInstance) : Json :=
  Json.jobj [("helloWorks", Json.jobj [("instance", instanceToJson inst)])]

/-- Outcomes of the fallible external calls made by one run of
sendHelloWorksUsTaxForm: instance creation, authenticated-link fetch,
the document update storing the link, and the notification email. A
some value in the last two means the call threw that error. -/
structure HelloWorksEnv where
  createInstanceResult : Except JsError WorkflowInstance
  authenticatedLinkResult : Except JsError String
  mergeUpdateError : Option JsError
  emailSendError : Option JsError
deriving Repr

/-- Severity of a log line. -/
inductive LogLevel where
  | info
  | warn
  | error
deriving DecidableEq, Repr

/-- A log line: severity and message. -/
structure LogEntry where
  level : LogLevel
  message : String
deriving DecidableEq, Repr

/-- A delivered tax-form-request email with its template payload. -/
structure EmailSent where
  template : String
  sentTo : String
  documentLink : String
  recipientName : String
  accountName : String
deriving DecidableEq, Repr

/-- Return value of sendHelloWorksUsTaxForm: undefined after the
no-contact skip, the email-library result on success, or the ERROR
document saved by the catch block. -/
inductive SendResult where
  | skipped
  | sentEmail (email : EmailSent)
  | errorDocument (doc : LegalDocument)
deriving Repr

/-- Observable outcome of one run of sendHelloWorksUsTaxForm: the final
document store, every store snapshot taken right after each database
write in order, the delivered emails, the log lines, whether the
createInstance call was issued, and the return value. -/
structure SendOutcome where
  store : List LegalDocument
  writes : List (List LegalDocument)
  emails : List EmailSent
  logs : List LogEntry
  createCalled : Bool
  result : SendResult
deriving Repr

/-- JavaScript or-chain over possibly absent strings: the first operand
when it is truthy (non-empty), otherwise the second. -/
def jsOr (a b : String) : String := if a = "" then b else a

/-- sendHelloWorksUsTaxForm from tax-forms.ts. The admin users are the
result of getAdminsForAccount, the expenses stand for the expense table,
and env fixes the outcome of each external call of this run. Control
flow follows the source: skip with an error log when no contact is
resolved; on createInstance failure the catch block saves an ERROR
document with the message and stack of the error and returns it; on
success the REQUESTED status and raw instance snapshot are saved first,
then the authenticated link is fetched, a fetch failure only logging a
warning and falling back to the unauthenticated url of the first step;
the link is merged into the stored data with deepmerge; finally the
email is sent. A missing first step, a throwing update or a throwing
email send all reach the same catch block. -/
def sendHelloWorksUsTaxForm (env : HelloWorksEnv) (account : Collective)
    (year : Int) (adminUsers : List AdminUser) (expenses : List Expense)
    (store : List LegalDocument) : SendOutcome :=
  match getMainAdminToContact account adminUsers expenses with
  | none =>
      { store := store, writes := [], emails := [], logs :=
          [{ level := LogLevel.error, message := "No contact found for account. Skipping tax form." }],
        createCalled := false, result := SendResult.skipped }
  | some mainUser =>
      match env.createInstanceResult with
      | Except.error err =>
          let saved := saveDocumentStatus account year RequestStatus.ERROR (errorToJson err) store
          { store := saved.2, writes := [saved.2], emails := [], logs :=
              [{ level := LogLevel.error, message := "Failed to initialize tax form for account" }],
            createCalled := true, result := SendResult.errorDocument saved.1 }
      | Except.ok inst =>
          let saved1 := saveDocumentStatus account year RequestStatus.REQUESTED (requestedData inst) store
          match inst.steps with
          | [] =>
              let err : JsError :=
                { message := "Cannot read properties of undefined (reading url)", stack := "TypeError" }
              let saved2 := saveDocumentStatus account year RequestStatus.ERROR (errorToJson err) saved1.2
              { store := saved2.2, writes := [saved1.2, saved2.2], emails := [], logs :=
                  [{ level := LogLevel.error, message := "Failed to initialize tax form for account" }],
                createCalled := true, result := SendResult.errorDocument saved2.1 }
          | step0 :: _ =>
              let linkFetch : String × List LogEntry :=
                match env.authenticatedLinkResult with
                | Except.ok link => (link, [])
                | Except.error e =>
                    (step0.url,
                     [{ level := LogLevel.warn,
                        message := "Tax form: error getting authenticated link for " ++ inst.id ++ ": " ++ e.message }])
              let documentLink := linkFetch.1
              match env.mergeUpdateError with
              | some err =>
                  let saved2 := saveDocumentStatus account year RequestStatus.ERROR (errorToJson err) saved1.2
                  { store := saved2.2, writes := [saved1.2, saved2.2], emails := [], logs :=
                      linkFetch.2 ++
                        [{ level := LogLevel.error, message := "Failed to initialize tax form for account" }],
                    createCalled := true, result := SendResult.errorDocument saved2.1 }
              | none =>
                  let newData := deepMerge saved1.1.data
                    (Json.jobj [("helloWorks", Json.jobj [("documentLink", Json.jstr documentLink)])])
                  let store2 := updateDoc year account.id (fun d => { d with data := newData }) saved1.2
                  match env.emailSendError with
                  | some err =>
                      let saved3 := saveDocumentStatus account year RequestStatus.ERROR (errorToJson err) store2
                      { store := saved3.2, writes := [saved1.2, store2, saved3.2], emails := [], logs :=
                          linkFetch.2 ++
                            [{ level := LogLevel.error, message := "Failed to initialize tax form for account" }],
                        createCalled := true, result := SendResult.errorDocument saved3.1 }
                  | none =>
                      let email : EmailSent :=
                        { template := "tax-form-request",
                          sentTo := mainUser.email,
                          documentLink := documentLink,
                          recipientName := jsOr mainUser.collective.name mainUser.collective.legalName,
                          accountName := jsOr account.legalName (jsOr account.name account.slug) }
                      { store := store2, writes := [saved1.2, store2], emails := [email],
                        logs := linkFetch.2, createCalled := true,
                        result := SendResult.sentEmail email }

/-- Facts asserted of an outcome whose run ended in the catch block with
the given thrown error: the returned value is the saved document, that
document carries status ERROR and the message and stack of the error,
it is the stored row for the account and year, and no email was sent. -/
def savedErrorOutcome (out : SendOutcome) (year : Int) (accountId : Int) (e : JsError) : Prop :=
  (∃ d, out.result = SendResult.errorDocument d ∧
    d.requestStatus = RequestStatus.ERROR ∧
    d.data = errorToJson e ∧
    out.store.find? (docKeyMatches year accountId) = some d) ∧
  out.emails = []

/-- Concrete organization account used by the witness runs. -/
def wAccount : Collective :=
  { id := 1, name := "Acme", legalName := "Acme LLC", slug := "acme", ctype := "ORGANIZATION" }

/-- Concrete personal profile of the first witness admin. -/
def wProfile : Collective :=
  { id := 21, name := "Jane Doe", legalName := "", slug := "jane-doe", ctype := "USER" }

/-- First witness admin. -/
def wUser : AdminUser := { id := 10, email := "jane@opencollective.com", collective := wProfile }

/-- Second witness admin. -/
def wUser2 : AdminUser :=
  { id := 11, email := "max@opencollective.com",
    collective := { id := 22, name := "Max Moe", legalName := "", slug := "max-moe", ctype := "USER" } }

/-- Third witness admin. -/
def wUser3 : AdminUser :=
  { id := 12, email := "kim@opencollective.com",
    collective := { id := 23, name := "Kim Koe", legalName := "", slug := "kim-koe", ctype := "USER" } }

/-- Witness expense submitted by the second admin for the witness
account. -/
def wExpense : Expense := { id := 100, createdAt := 5, FromCollectiveId := 1, UserId := 11 }

/-- Witness workflow instance with one signing step. -/
def wInstance : WorkflowInstance :=
  { id := "w1", steps := [{ step := "step1", url := "unauth-url" }] }

/-- Witness thrown error. -/
def wError : JsError := { message := "boom", stack := "trace" }

/-- Witness store holding the REQUESTED row with the instance snapshot
for the witness account and year 2020. -/
def wStore0 : List LegalDocument :=
  [{ year := 2020, CollectiveId := 1, requestStatus := RequestStatus.REQUESTED,
     data := requestedData wInstance }]

/-- Witness run where every call succeeds except the email send. -/
def wEnvEmailFail : HelloWorksEnv :=
  { createInstanceResult := Except.ok wInstance,
    authenticatedLinkResult := Except.ok "auth-url",
    mergeUpdateError := none, emailSendError := some wError }

/-- Witness run where the createInstance call throws. -/
def wEnvCreateFail : HelloWorksEnv :=
  { createInstanceResult := Except.error wError,
    authenticatedLinkResult := Except.ok "auth-url",
    mergeUpdateError := none, emailSendError := none }

/-- Witness run where only the authenticated-link fetch fails. -/
def wEnvLinkFail : HelloWorksEnv :=
  { createInstanceResult := Except.ok wInstance,
    authenticatedLinkResult := Except.error wError,
    mergeUpdateError := none, emailSendError := none }

/-- Witness collective with no legal document. -/
def wCollNoDoc : CollectiveWithDocuments :=
  { collective := { id := 2, name := "NoDoc", legalName := "", slug := "nodoc", ctype := "ORGANIZATION" },
    legalDocuments := [] }

/-- Witness document already REQUESTED for the account with id 3. -/
def wDocRequested : LegalDocument :=
  { year := 2020, CollectiveId := 3, requestStatus := RequestStatus.REQUESTED,
    data := Json.jnull }

/-- Witness collective whose 2020 document is already REQUESTED, hence
not to be requested again. -/
def wCollRequested : CollectiveWithDocuments :=
  { collective := { id := 3, name := "HasDoc", legalName := "", slug := "hasdoc", ctype := "ORGANIZATION" },
    legalDocuments := [wDocRequested] }

/-- Merging a one-key documentLink object into a stored helloWorks
object keeps the previously stored instance field: key-by-key object
merge never drops keys. Holds for any fuel of at least two. -/
theorem deepMergeGo_instance_documentLink (fuel : Nat) (v : Json) (link : String) :
    deepMergeGo (fuel + 2)
      (Json.jobj [("helloWorks", Json.jobj [("instance", v)])])
      (Json.jobj [("helloWorks", Json.jobj [("documentLink", Json.jstr link)])])
    = Json.jobj [("helloWorks",
        Json.jobj [("instance", v), ("documentLink", Json.jstr link)])] := by
  simp [deepMergeGo, jlookup]

/-- Depth of the stored REQUESTED payload, in terms of the depth of the
raw instance snapshot it wraps. -/
theorem jdepth_helloWorks_instance (v : Json) :
    jdepth (Json.jobj [("helloWorks", Json.jobj [("instance", v)])]) = jdepth v + 2 := by
  simp [jdepth]
  omega

/-- The top-level merge performed at the documentLink update: previously
stored instance and freshly fetched link end up side by side. -/
theorem deepMerge_instance_documentLink (v : Json) (link : String) :
    deepMerge (Json.jobj [("helloWorks", Json.jobj [("instance", v)])])
      (Json.jobj [("helloWorks", Json.jobj [("documentLink", Json.jstr link)])])
    = Json.jobj [("helloWorks",
        Json.jobj [("instance", v), ("documentLink", Json.jstr link)])] := by
  unfold deepMerge
  rw [jdepth_helloWorks_instance]
  have h : jdepth v + 2 + 1 = (jdepth v + 1) + 2 := by omega
  rw [h, deepMergeGo_instance_documentLink]

/-- Result length bound for truncate at any limit of at least three. -/
theorem truncate_length_le (s : String) (len : Nat) (h : 3 ≤ len) :
    (truncate s len).length ≤ len := by
  unfold truncate
  split
  · omega
  · rw [String.length_append, String.length_mk, List.length_take]
    have h3 : ("...").length = 3 := by decide
    rw [h3]
    omega

/-- pickLatest keeps an accumulator that is at least as late as every
remaining row. -/
theorem pickLatest_keeps_max (l : List Expense) (e : Expense)
    (h : ∀ x ∈ l, x.createdAt ≤ e.createdAt) :
    pickLatest (some e) l = some e := by
  induction l with
  | nil => rfl
  | cons x xs ih =>
      have hx : x.createdAt ≤ e.createdAt := h x (List.mem_cons_self x xs)
      have hnot : ¬ (x.createdAt > e.createdAt) := by omega
      simp only [pickLatest, if_neg hnot]
      exact ih (fun y hy => h y (List.mem_cons_of_mem x hy))

/-- pickLatest finds the strictly latest row of the remaining list even
when started from an earlier accumulator. -/
theorem pickLatest_finds_max (l : List Expense) (e : Expense) :
    (∀ x ∈ l, x ≠ e → x.createdAt < e.createdAt) →
    ∀ b : Expense, e ∈ l → b.createdAt < e.createdAt →
    pickLatest (some b) l = some e := by
  induction l with
  | nil =>
      intro _ b hmem _
      cases hmem
  | cons x xs ih =>
      intro hmax b hmem hb
      by_cases hxe : x = e
      · subst hxe
        simp only [pickLatest, if_pos hb]
        apply pickLatest_keeps_max
        intro y hy
        by_cases hye : y = x
        · exact le_of_eq (by rw [hye])
        · exact le_of_lt (hmax y (List.mem_cons_of_mem x hy) hye)
      · have hmem2 : e ∈ xs := by
          cases List.mem_cons.mp hmem with
          | inl h => exact absurd h.symm hxe
          | inr h => exact h
        have hx : x.createdAt < e.createdAt :=
          hmax x (List.mem_cons_self x xs) hxe
        have hmax2 : ∀ y ∈ xs, y ≠ e → y.createdAt < e.createdAt :=
          fun y hy hye => hmax y (List.mem_cons_of_mem x hy) hye
        simp only [pickLatest]
        split
        · exact ih hmax2 x hmem2 hx
        · exact ih hmax2 b hmem2 hb

/-- pickLatest from an empty accumulator finds the strictly latest row. -/
theorem pickLatest_none_finds_max (l : List Expense) (e : Expense)
    (hmem : e ∈ l)
    (hmax : ∀ x ∈ l, x ≠ e → x.createdAt < e.createdAt) :
    pickLatest none l = some e := by
  cases l with
  | nil => cases hmem
  | cons x xs =>
      simp only [pickLatest]
      by_cases hxe : x = e
      · subst hxe
        apply pickLatest_keeps_max
        intro y hy
        by_cases hye : y = x
        · exact le_of_eq (by rw [hye])
        · exact le_of_lt (hmax y (List.mem_cons_of_mem x hy) hye)
      · have hmem2 : e ∈ xs := by
          cases List.mem_cons.mp hmem with
          | inl h => exact absurd h.symm hxe
          | inr h => exact h
        exact pickLatest_finds_max xs e
          (fun y hy hye => hmax y (List.mem_cons_of_mem x hy) hye)
          x hmem2 (hmax x (List.mem_cons_self x xs) hxe)

/-- When no row of the table satisfies the filter of findLatestExpense,
the query returns none. -/
theorem findLatestExpense_none (accountId : Int) (adminIds : List Int)
    (expenses : List Expense)
    (h : ∀ e ∈ expenses, ¬ (e.FromCollectiveId = accountId ∧ adminIds.contains e.UserId = true)) :
    findLatestExpense accountId adminIds expenses = none := by
  unfold findLatestExpense
  have hfilter : expenses.filter
      (fun e => e.FromCollectiveId == accountId && adminIds.contains e.UserId) = [] := by
    rw [List.filter_eq_nil_iff]
    intro e he
    intro hcontra
    rw [Bool.and_eq_true, beq_iff_eq] at hcontra
    exact h e he ⟨hcontra.1, hcontra.2⟩
  rw [hfilter]
  rfl

/-- findLatestExpense returns the row that is a strict maximum of the
matching rows by creation time. -/
theorem findLatestExpense_strict_max (accountId : Int) (adminIds : List Int)
    (expenses : List Expense) (e : Expense)
    (hmem : e ∈ expenses)
    (hfrom : e.FromCollectiveId = accountId)
    (huser : adminIds.contains e.UserId = true)
    (hmax : ∀ x ∈ expenses, x.FromCollectiveId = accountId →
      adminIds.contains x.UserId = true → x ≠ e → x.createdAt < e.createdAt) :
    findLatestExpense accountId adminIds expenses = some e := by
  unfold findLatestExpense
  apply pickLatest_none_finds_max
  · rw [List.mem_filter]
    refine ⟨hmem, ?_⟩
    rw [Bool.and_eq_true, beq_iff_eq]
    exact ⟨hfrom, huser⟩
  · intro x hx hne
    rw [List.mem_filter, Bool.and_eq_true, beq_iff_eq] at hx
    exact hmax x hx.1 hx.2.1 hx.2.2 hne

/-- On a list of admins with pairwise distinct ids, searching by the id
of a member returns exactly that member. -/
theorem find_admin_by_id (adminUsers : List AdminUser) (a : AdminUser)
    (hnodup : (adminUsers.map (fun u => u.id)).Nodup)
    (hmem : a ∈ adminUsers) :
    adminUsers.find? (fun u => u.id == a.id) = some a := by
  induction adminUsers with
  | nil => cases hmem
  | cons x xs ih =>
      rw [List.map_cons, List.nodup_cons] at hnodup
      cases List.mem_cons.mp hmem with
      | inl h =>
          subst h
          simp [List.find?]
      | inr h =>
          have hxa : (x.id == a.id) = false := by
            rw [beq_eq_false_iff_ne]
            intro hcontra
            exact hnodup.1 (hcontra ▸ List.mem_map_of_mem (fun u => u.id) h)
          simp only [List.find?, hxa]
          exact ih hnodup.2 h

/-- Membership of an id in the mapped id list of the admins. -/
theorem contains_map_id_of_mem (adminUsers : List AdminUser) (a : AdminUser)
    (h : a ∈ adminUsers) :
    (adminUsers.map (fun u => u.id)).contains a.id = true := by
  have hm : a.id ∈ adminUsers.map (fun u => u.id) := List.mem_map_of_mem _ h
  exact List.elem_eq_true_of_mem hm

/-- Updating the first key-matching row rewrites what find? sees, as
long as the update keeps the key. -/
theorem find?_updateDoc (year : Int) (aid : Int) (f : LegalDocument → LegalDocument)
    (store : List LegalDocument) (d : LegalDocument)
    (hfind : store.find? (docKeyMatches year aid) = some d)
    (hf : docKeyMatches year aid (f d) = true) :
    (updateDoc year aid f store).find? (docKeyMatches year aid) = some (f d) := by
  induction store with
  | nil => cases hfind
  | cons x xs ih =>
      by_cases hx : docKeyMatches year aid x = true
      · rw [List.find?_cons_of_pos _ hx] at hfind
        injection hfind with hd
        subst hd
        unfold updateDoc
        rw [if_pos hx]
        exact List.find?_cons_of_pos _ hf
      · rw [List.find?_cons_of_neg _ hx] at hfind
        unfold updateDoc
        rw [if_neg hx, List.find?_cons_of_neg _ hx]
        exact ih hfind

/-- Appending a matching row to a store with no key match makes it what
find? sees. -/
theorem find?_append_singleton (p : LegalDocument → Bool) (store : List LegalDocument)
    (u : LegalDocument) (hnone : store.find? p = none) (hu : p u = true) :
    (store ++ [u]).find? p = some u := by
  induction store with
  | nil => simp [List.find?, hu]
  | cons x xs ih =>
      by_cases hx : p x = true
      · rw [List.find?_cons_of_pos _ hx] at hnone
        cases hnone
      · rw [List.find?_cons_of_neg _ hx] at hnone
        rw [List.cons_append, List.find?_cons_of_neg _ hx]
        exact ih hnone

/-- After saveDocumentStatus, find? on the resulting store locates
exactly the returned row: the (account, year, US_TAX_FORM) row is
created when absent and updated in place when present. -/
theorem saveDocumentStatus_find (account : Collective) (year : Int)
    (status : RequestStatus) (data : Json) (store : List LegalDocument) :
    (saveDocumentStatus account year status data store).2.find?
        (docKeyMatches year account.id) =
      some (saveDocumentStatus account year status data store).1 := by
  unfold saveDocumentStatus
  cases hfind : store.find? (docKeyMatches year account.id) with
  | some d =>
      simp only []
      apply find?_updateDoc year account.id _ store d hfind
      have hd := List.find?_some hfind
      simpa [docKeyMatches] using hd
  | none =>
      simp only []
      apply find?_append_singleton _ store _ hfind
      simp [docKeyMatches]

/-- The row returned by saveDocumentStatus carries exactly the given
status and data payload, in both the update and the create branch. -/
theorem saveDocumentStatus_fst (account : Collective) (year : Int)
    (status : RequestStatus) (data : Json) (store : List LegalDocument) :
    (saveDocumentStatus account year status data store).1.requestStatus = status ∧
    (saveDocumentStatus account year status data store).1.data = data := by
  unfold saveDocumentStatus
  cases store.find? (docKeyMatches year account.id) <;> exact ⟨rfl, rfl⟩

/-- C1 (amended): saveDocumentStatus finds-or-creates the unique
(account, year, US_TAX_FORM) record and updates it by replacing the
data payload with the new one; the merge that preserves earlier fields
is performed by sendHelloWorksUsTaxForm at the documentLink update
through deepmerge, where helloWorks.instance and helloWorks.documentLink
end up side by side. -/
theorem saveDocumentStatus_replaces_and_merge_at_link (account : Collective) (year : Int)
    (status : RequestStatus) (data : Json) (store : List LegalDocument) :
    ((saveDocumentStatus account year status data store).1.requestStatus = status ∧
      (saveDocumentStatus account year status data store).1.data = data) ∧
    ((saveDocumentStatus account year status data store).2.find?
        (docKeyMatches year account.id) =
      some (saveDocumentStatus account year status data store).1) ∧
    (∀ v link, deepMerge (Json.jobj [("helloWorks", Json.jobj [("instance", v)])])
        (Json.jobj [("helloWorks", Json.jobj [("documentLink", Json.jstr link)])])
      = Json.jobj [("helloWorks",
          Json.jobj [("instance", v), ("documentLink", Json.jstr link)])]) :=
  ⟨saveDocumentStatus_fst account year status data store,
   saveDocumentStatus_find account year status data store,
   deepMerge_instance_documentLink⟩

/-- C1 counterexample: saving an error payload over the record that
previously held helloWorks.instance replaces the data object wholesale:
the resulting data is exactly the error object, whose entries have no
helloWorks key, so the previously stored fields are gone rather than
merged. -/
theorem saveDocumentStatus_merge_counterexample :
    (saveDocumentStatus wAccount 2020 RequestStatus.ERROR (errorToJson wError) wStore0).1.data
      = Json.jobj [("error",
          Json.jobj [("message", Json.jstr "boom"), ("stack", Json.jstr "trace")])] ∧
    jlookup "helloWorks"
      [("error", Json.jobj [("message", Json.jstr "boom"), ("stack", Json.jstr "trace")])]
      = none :=
  ⟨rfl, rfl⟩

/-- C2: amountsRequireTaxForm is true exactly when the non-PayPal total
reaches the general threshold or the PayPal total reaches the PayPal
threshold, and it is false when both amounts sit one unit below their
thresholds. -/
theorem amountsRequireTaxForm_iff (paypalTotal otherTotal : Int) :
    (amountsRequireTaxForm paypalTotal otherTotal = true ↔
      (otherTotal ≥ US_TAX_FORM_THRESHOLD ∨
        paypalTotal ≥ US_TAX_FORM_THRESHOLD_FOR_PAYPAL)) ∧
    amountsRequireTaxForm (US_TAX_FORM_THRESHOLD_FOR_PAYPAL - 1)
      (US_TAX_FORM_THRESHOLD - 1) = false := by
  constructor
  · simp [amountsRequireTaxForm]
  · decide

/-- C2 witness: the equivalence applied at a concrete point where only
the PayPal amount reaches its threshold. -/
theorem amountsRequireTaxForm_iff_witness :
    amountsRequireTaxForm 30000 0 = true :=
  (amountsRequireTaxForm_iff 30000 0).1.mpr (Or.inr (by decide))

/-- C10: amountsRequireTaxForm is monotone in both cumulative amounts:
increasing either amount never makes a required form stop being
required. -/
theorem amountsRequireTaxForm_monotone (p p2 o o2 : Int) (hp : p ≤ p2) (ho : o ≤ o2)
    (h : amountsRequireTaxForm p o = true) :
    amountsRequireTaxForm p2 o2 = true := by
  simp only [amountsRequireTaxForm, Bool.or_eq_true, decide_eq_true_eq] at h ⊢
  rcases h with h | h
  · exact Or.inl (le_trans h ho)
  · exact Or.inr (le_trans h hp)

/-- C10 witness: monotonicity applied at a concrete step from the PayPal
threshold point upward. -/
theorem amountsRequireTaxForm_monotone_witness :
    amountsRequireTaxForm 30001 5 = true :=
  amountsRequireTaxForm_monotone 30000 30001 0 5 (by decide) (by decide) (by decide)

/-- C4: generateParticipantName always returns at most 64 characters,
uses the truncated legal name when one is set, the truncated account
name for a personal profile, and otherwise a composite of the slug and
the contact name, each half truncated to at most 30 characters. -/
theorem generateParticipantName_spec (account : Collective) (mainUser : AdminUser) :
    (generateParticipantName account mainUser).length ≤ 64 ∧
    (account.legalName ≠ "" →
      generateParticipantName account mainUser = truncate account.legalName 64) ∧
    (account.legalName = "" → account.id = mainUser.collective.id →
      generateParticipantName account mainUser = truncate account.name 64) ∧
    (account.legalName = "" → account.id ≠ mainUser.collective.id →
      generateParticipantName account mainUser =
        truncate account.slug 30 ++ " (" ++ truncate mainUser.collective.name 30 ++ ")" ∧
      (truncate account.slug 30).length ≤ 30 ∧
      (truncate mainUser.collective.name 30).length ≤ 30) := by
  refine ⟨?_, ?_, ?_, ?_⟩
  · unfold generateParticipantName
    split
    · exact truncate_length_le _ _ (by omega)
    · split
      · exact truncate_length_le _ _ (by omega)
      · rw [String.length_append, String.length_append, String.length_append]
        have h1 := truncate_length_le account.slug 30 (by omega)
        have h2 := truncate_length_le mainUser.collective.name 30 (by omega)
        have h3 : (" (").length = 2 := by decide
        have h4 : (")").length = 1 := by decide
        rw [h3, h4]
        omega
  · intro h
    simp [generateParticipantName, h]
  · intro h1 h2
    simp [generateParticipantName, h1, h2]
  · intro h1 h2
    refine ⟨?_, truncate_length_le _ _ (by omega), truncate_length_le _ _ (by omega)⟩
    simp [generateParticipantName, h1, h2]

/-- C4 witness: the legal-name branch and the length bound at the
concrete witness account. -/
theorem generateParticipantName_spec_witness :
    generateParticipantName wAccount wUser = truncate wAccount.legalName 64 ∧
    (generateParticipantName wAccount wUser).length ≤ 64 :=
  ⟨(generateParticipantName_spec wAccount wUser).2.1 (by decide),
   (generateParticipantName_spec wAccount wUser).1⟩

/-- C3: getMainAdminToContact returns none for an empty admin list, the
single admin regardless of expenses, and with several admins the
submitter of the strictly latest matching expense when one exists, the
first admin of the loaded order when no expense matches. -/
theorem getMainAdminToContact_spec (account : Collective)
    (adminUsers : List AdminUser) (expenses : List Expense) :
    (adminUsers = [] → getMainAdminToContact account adminUsers expenses = none) ∧
    (∀ u, adminUsers = [u] → getMainAdminToContact account adminUsers expenses = some u) ∧
    (∀ a e, adminUsers.length > 1 →
      (adminUsers.map (fun u => u.id)).Nodup →
      a ∈ adminUsers → a.id = e.UserId →
      e ∈ expenses → e.FromCollectiveId = account.id →
      (∀ x ∈ expenses, x.FromCollectiveId = account.id →
        (adminUsers.map (fun u => u.id)).contains x.UserId = true → x ≠ e →
        x.createdAt < e.createdAt) →
      getMainAdminToContact account adminUsers expenses = some a) ∧
    ((∀ x ∈ expenses, ¬ (x.FromCollectiveId = account.id ∧
        (adminUsers.map (fun u => u.id)).contains x.UserId = true)) →
      getMainAdminToContact account adminUsers expenses = adminUsers.head?) := by
  refine ⟨?_, ?_, ?_, ?_⟩
  · intro h
    subst h
    rfl
  · intro u h
    subst h
    rfl
  · intro a e hlen hnodup hmem hid hememe hfrom hmax
    have hfind : findLatestExpense account.id (adminUsers.map (fun u => u.id)) expenses
        = some e := by
      apply findLatestExpense_strict_max
      · exact hememe
      · exact hfrom
      · rw [← hid]
        exact contains_map_id_of_mem adminUsers a hmem
      · exact hmax
    have hfind2 : adminUsers.find? (fun u => u.id == e.UserId) = some a := by
      rw [← hid]
      exact find_admin_by_id adminUsers a hnodup hmem
    simp only [getMainAdminToContact, if_pos hlen, hfind, hfind2]
  · intro hnone
    by_cases hlen : adminUsers.length > 1
    · have hfind : findLatestExpense account.id (adminUsers.map (fun u => u.id)) expenses
          = none := findLatestExpense_none _ _ _ hnone
      simp only [getMainAdminToContact, if_pos hlen, hfind]
    · simp only [getMainAdminToContact, if_neg hlen]

/-- C3 witness: three admins and one expense submitted by the second
admin; the resolver returns the second admin. -/
theorem getMainAdminToContact_spec_witness :
    getMainAdminToContact wAccount [wUser, wUser2, wUser3] [wExpense] = some wUser2 :=
  (getMainAdminToContact_spec wAccount [wUser, wUser2, wUser3] [wExpense]).2.2.1
    wUser2 wExpense (by decide) (by decide) (by decide) (by decide) (by decide)
    (by decide) (by decide)

/-- C8: findAccountsThatNeedToBeSentTaxForm short-circuits to an empty
collection without issuing the follow-up load when the candidate id set
is empty; every returned account comes from the candidate set and has
either no document for the year or one that should be requested again;
and a row whose year documents exist and none of which should be
requested never appears in the result. -/
theorem findAccountsThatNeedToBeSentTaxForm_spec (year : Int)
    (collectiveIds : List Int) (collectives : List CollectiveWithDocuments) :
    (collectiveIds = [] →
      findAccountsThatNeedToBeSentTaxForm year collectiveIds collectives = ([], false)) ∧
    (∀ c ∈ (findAccountsThatNeedToBeSentTaxForm year collectiveIds collectives).1,
      collectiveIds.contains c.collective.id = true ∧
      (∀ d ∈ c.legalDocuments, d.year = year) ∧
      (c.legalDocuments = [] ∨ ∃ d ∈ c.legalDocuments, d.shouldBeRequested = true)) ∧
    (∀ c0 : CollectiveWithDocuments, c0.legalDocuments ≠ [] →
      (∀ d ∈ c0.legalDocuments, d.shouldBeRequested = false) →
      c0 ∉ (findAccountsThatNeedToBeSentTaxForm year collectiveIds collectives).1) := by
  refine ⟨?_, ?_, ?_⟩
  · intro h
    subst h
    rfl
  · intro c hc
    by_cases hids : collectiveIds.isEmpty
    · rw [findAccountsThatNeedToBeSentTaxForm, if_pos hids] at hc
      cases hc
    · rw [findAccountsThatNeedToBeSentTaxForm, if_neg hids] at hc
      simp only [List.mem_filter] at hc
      obtain ⟨hc1, hpred⟩ := hc
      rw [List.mem_map] at hc1
      obtain ⟨c0, hc0, hmapped⟩ := hc1
      rw [List.mem_filter] at hc0
      refine ⟨?_, ?_, ?_⟩
      · rw [← hmapped]
        exact hc0.2
      · intro d hd
        rw [← hmapped] at hd
        simp only [List.mem_filter, beq_iff_eq] at hd
        exact hd.2
      · rw [Bool.or_eq_true] at hpred
        cases hpred with
        | inl hempty =>
            left
            exact List.isEmpty_iff.mp hempty
        | inr hany =>
            right
            rw [List.any_eq_true] at hany
            obtain ⟨d, hd, hds⟩ := hany
            exact ⟨d, hd, hds⟩
  · intro c0 hne hall hmem
    by_cases hids : collectiveIds.isEmpty
    · rw [findAccountsThatNeedToBeSentTaxForm, if_pos hids] at hmem
      cases hmem
    · rw [findAccountsThatNeedToBeSentTaxForm, if_neg hids] at hmem
      simp only [List.mem_filter] at hmem
      rw [Bool.or_eq_true] at hmem
      cases hmem.2 with
      | inl hempty => exact hne (List.isEmpty_iff.mp hempty)
      | inr hany =>
          rw [List.any_eq_true] at hany
          obtain ⟨d, hd, hds⟩ := hany
          rw [hall d hd] at hds
          cases hds

/-- C8 witness: with candidates 2 and 3, the account whose 2020 document
is already REQUESTED is excluded from the result. -/
theorem findAccountsThatNeedToBeSentTaxForm_spec_witness :
    wCollRequested ∉
      (findAccountsThatNeedToBeSentTaxForm 2020 [2, 3] [wCollNoDoc, wCollRequested]).1 :=
  (findAccountsThatNeedToBeSentTaxForm_spec 2020 [2, 3] [wCollNoDoc, wCollRequested]).2.2
    wCollRequested (by simp [wCollRequested]) (by decide)

/-- C9: when contact resolution yields no admin, the run logs an error
and returns with nothing else done: the store is unchanged, no write
happens, no email is sent, createInstance is never called, and the
return value is the skip. -/
theorem sendHelloWorks_no_contact_skips (env : HelloWorksEnv) (account : Collective)
    (year : Int) (adminUsers : List AdminUser) (expenses : List Expense)
    (store : List LegalDocument)
    (hcontact : getMainAdminToContact account adminUsers expenses = none) :
    sendHelloWorksUsTaxForm env account year adminUsers expenses store =
      { store := store, writes := [], emails := [],
        logs := [{ level := LogLevel.error, message := "No contact found for account. Skipping tax form." }],
        createCalled := false, result := SendResult.skipped } := by
  unfold sendHelloWorksUsTaxForm
  rw [hcontact]

/-- C9 witness: the skip at a concrete run with an empty admin list. -/
theorem sendHelloWorks_no_contact_skips_witness :
    sendHelloWorksUsTaxForm wEnvCreateFail wAccount 2020 [] [] wStore0 =
      { store := wStore0, writes := [], emails := [],
        logs := [{ level := LogLevel.error, message := "No contact found for account. Skipping tax form." }],
        createCalled := false, result := SendResult.skipped } :=
  sendHelloWorks_no_contact_skips wEnvCreateFail wAccount 2020 [] [] wStore0 rfl

/-- C6: after contact resolution, a throwing createInstance, a throwing
documentLink update or a throwing email send is caught by the catch
block, which persists the ERROR status with the message and stack of the
error, returns that record, and sends no email. -/
theorem sendHelloWorks_failure_saves_error (env : HelloWorksEnv) (account : Collective)
    (year : Int) (adminUsers : List AdminUser) (expenses : List Expense)
    (store : List LegalDocument) (mainUser : AdminUser)
    (hcontact : getMainAdminToContact account adminUsers expenses = some mainUser) :
    (∀ e, env.createInstanceResult = Except.error e →
      savedErrorOutcome (sendHelloWorksUsTaxForm env account year adminUsers expenses store)
        year account.id e) ∧
    (∀ e inst step0 rest, env.createInstanceResult = Except.ok inst →
      inst.steps = step0 :: rest → env.mergeUpdateError = some e →
      savedErrorOutcome (sendHelloWorksUsTaxForm env account year adminUsers expenses store)
        year account.id e) ∧
    (∀ e inst step0 rest, env.createInstanceResult = Except.ok inst →
      inst.steps = step0 :: rest → env.mergeUpdateError = none →
      env.emailSendError = some e →
      savedErrorOutcome (sendHelloWorksUsTaxForm env account year adminUsers expenses store)
        year account.id e) := by
  refine ⟨?_, ?_, ?_⟩
  · intro e hcreate
    simp only [sendHelloWorksUsTaxForm, hcontact, hcreate]
    refine ⟨⟨(saveDocumentStatus account year RequestStatus.ERROR (errorToJson e) store).1,
      rfl, ?_, ?_, ?_⟩, rfl⟩
    · exact (saveDocumentStatus_fst account year RequestStatus.ERROR (errorToJson e) store).1
    · exact (saveDocumentStatus_fst account year RequestStatus.ERROR (errorToJson e) store).2
    · exact saveDocumentStatus_find account year RequestStatus.ERROR (errorToJson e) store
  · intro e inst step0 rest hcreate hsteps hupd
    simp only [sendHelloWorksUsTaxForm, hcontact, hcreate, hsteps, hupd]
    refine ⟨⟨_, rfl, ?_, ?_, ?_⟩, rfl⟩
    · exact (saveDocumentStatus_fst account year RequestStatus.ERROR (errorToJson e) _).1
    · exact (saveDocumentStatus_fst account year RequestStatus.ERROR (errorToJson e) _).2
    · exact saveDocumentStatus_find account year RequestStatus.ERROR (errorToJson e) _
  · intro e inst step0 rest hcreate hsteps hupd hemail
    simp only [sendHelloWorksUsTaxForm, hcontact, hcreate, hsteps, hupd, hemail]
    refine ⟨⟨_, rfl, ?_, ?_, ?_⟩, rfl⟩
    · exact (saveDocumentStatus_fst account year RequestStatus.ERROR (errorToJson e) _).1
    · exact (saveDocumentStatus_fst account year RequestStatus.ERROR (errorToJson e) _).2
    · exact saveDocumentStatus_find account year RequestStatus.ERROR (errorToJson e) _

/-- C6 witness: the createInstance failure case at a concrete run. -/
theorem sendHelloWorks_failure_saves_error_witness :
    savedErrorOutcome (sendHelloWorksUsTaxForm wEnvCreateFail wAccount 2020 [wUser] [] [])
      2020 wAccount.id wError :=
  (sendHelloWorks_failure_saves_error wEnvCreateFail wAccount 2020 [wUser] [] [] wUser
    rfl).1 wError rfl

/-- After a saveDocumentStatus, updating the data of the key row in
place is visible to find? as the returned row with the new data. -/
theorem find?_updateDoc_const_data (account : Collective) (year : Int)
    (status : RequestStatus) (data0 newData : Json) (store : List LegalDocument) :
    (updateDoc year account.id (fun d => { d with data := newData })
        (saveDocumentStatus account year status data0 store).2).find?
      (docKeyMatches year account.id) =
    some { (saveDocumentStatus account year status data0 store).1 with data := newData } := by
  apply find?_updateDoc
  · exact saveDocumentStatus_find account year status data0 store
  · have h := List.find?_some (saveDocumentStatus_find account year status data0 store)
    simpa [docKeyMatches] using h

/-- C7: a failing authenticated-link fetch does not abort the flow: the
document link falls back to the unauthenticated url of the first step,
only a warning is logged, the fallback link is merged into the stored
data next to the instance snapshot while the record stays REQUESTED,
and the notification email is still sent with that link. -/
theorem sendHelloWorks_link_fetch_failure (env : HelloWorksEnv) (account : Collective)
    (year : Int) (adminUsers : List AdminUser) (expenses : List Expense)
    (store : List LegalDocument) (mainUser : AdminUser) (inst : WorkflowInstance)
    (step0 : WorkflowStep) (rest : List WorkflowStep) (e : JsError)
    (hcontact : getMainAdminToContact account adminUsers expenses = some mainUser)
    (hcreate : env.createInstanceResult = Except.ok inst)
    (hsteps : inst.steps = step0 :: rest)
    (hlink : env.authenticatedLinkResult = Except.error e)
    (hupd : env.mergeUpdateError = none)
    (hemail : env.emailSendError = none) :
    (sendHelloWorksUsTaxForm env account year adminUsers expenses store).result =
      SendResult.sentEmail
        { template := "tax-form-request", sentTo := mainUser.email,
          documentLink := step0.url,
          recipientName := jsOr mainUser.collective.name mainUser.collective.legalName,
          accountName := jsOr account.legalName (jsOr account.name account.slug) } ∧
    (sendHelloWorksUsTaxForm env account year adminUsers expenses store).emails =
      [{ template := "tax-form-request", sentTo := mainUser.email,
         documentLink := step0.url,
         recipientName := jsOr mainUser.collective.name mainUser.collective.legalName,
         accountName := jsOr account.legalName (jsOr account.name account.slug) }] ∧
    (sendHelloWorksUsTaxForm env account year adminUsers expenses store).logs =
      [{ level := LogLevel.warn,
         message := "Tax form: error getting authenticated link for " ++ inst.id ++ ": " ++ e.message }] ∧
    (sendHelloWorksUsTaxForm env account year adminUsers expenses store).store.find?
        (docKeyMatches year account.id) =
      some { (saveDocumentStatus account year RequestStatus.REQUESTED
              (requestedData inst) store).1 with
             data := Json.jobj [("helloWorks",
               Json.jobj [("instance", instanceToJson inst),
                 ("documentLink", Json.jstr step0.url)])] } ∧
    ({ (saveDocumentStatus account year RequestStatus.REQUESTED
         (requestedData inst) store).1 with
       data := Json.jobj [("helloWorks",
         Json.jobj [("instance", instanceToJson inst),
           ("documentLink", Json.jstr step0.url)])] } : LegalDocument).requestStatus =
      RequestStatus.REQUESTED := by
  refine ⟨?_, ?_, ?_, ?_, ?_⟩
  · simp only [sendHelloWorksUsTaxForm, hcontact, hcreate, hsteps, hlink, hupd, hemail]
  · simp only [sendHelloWorksUsTaxForm, hcontact, hcreate, hsteps, hlink, hupd, hemail]
  · simp only [sendHelloWorksUsTaxForm, hcontact, hcreate, hsteps, hlink, hupd, hemail]
  · simp only [sendHelloWorksUsTaxForm, hcontact, hcreate, hsteps, hlink, hupd, hemail]
    rw [find?_updateDoc_const_data account year RequestStatus.REQUESTED (requestedData inst)]
    rw [(saveDocumentStatus_fst account year RequestStatus.REQUESTED (requestedData inst) store).2]
    simp only [requestedData]
    rw [deepMerge_instance_documentLink]
  · exact (saveDocumentStatus_fst account year RequestStatus.REQUESTED
      (requestedData inst) store).1

/-- C7 witness: the concrete run with a failing link fetch sends the
email with the unauthenticated step url. -/
theorem sendHelloWorks_link_fetch_failure_witness :
    (sendHelloWorksUsTaxForm wEnvLinkFail wAccount 2020 [wUser] [] []).emails =
      [{ template := "tax-form-request", sentTo := wUser.email,
         documentLink := "unauth-url",
         recipientName := jsOr wUser.collective.name wUser.collective.legalName,
         accountName := jsOr wAccount.legalName (jsOr wAccount.name wAccount.slug) }] :=
  (sendHelloWorks_link_fetch_failure wEnvLinkFail wAccount 2020 [wUser] [] [] wUser
    wInstance { step := "step1", url := "unauth-url" } [] wError
    rfl rfl rfl rfl rfl rfl).2.1

/-- C5 (amended): whenever instance creation succeeds, the REQUESTED
status and the raw instance snapshot are persisted as the first database
write, before the authenticated-link fetch is attempted and
independently of the outcomes of every later call; a failure of the
link fetch itself therefore leaves the REQUESTED record holding the
instance, with the fallback link merged in. A failure thrown after that
persistence (for example a failing email send) is however caught and
overwrites the record with status ERROR, as the counterexample shows. -/
theorem sendHelloWorks_requested_before_link (env : HelloWorksEnv) (account : Collective)
    (year : Int) (adminUsers : List AdminUser) (expenses : List Expense)
    (store : List LegalDocument) (mainUser : AdminUser) (inst : WorkflowInstance)
    (hcontact : getMainAdminToContact account adminUsers expenses = some mainUser)
    (hcreate : env.createInstanceResult = Except.ok inst) :
    ((sendHelloWorksUsTaxForm env account year adminUsers expenses store).writes.head? =
      some (saveDocumentStatus account year RequestStatus.REQUESTED
        (requestedData inst) store).2) ∧
    ((saveDocumentStatus account year RequestStatus.REQUESTED
        (requestedData inst) store).2.find? (docKeyMatches year account.id) =
      some (saveDocumentStatus account year RequestStatus.REQUESTED
        (requestedData inst) store).1) ∧
    ((saveDocumentStatus account year RequestStatus.REQUESTED
        (requestedData inst) store).1.requestStatus = RequestStatus.REQUESTED) ∧
    ((saveDocumentStatus account year RequestStatus.REQUESTED
        (requestedData inst) store).1.data = requestedData inst) ∧
    (∀ step0 rest e, inst.steps = step0 :: rest →
      env.authenticatedLinkResult = Except.error e →
      env.mergeUpdateError = none → env.emailSendError = none →
      (sendHelloWorksUsTaxForm env account year adminUsers expenses store).store.find?
          (docKeyMatches year account.id) =
        some { (saveDocumentStatus account year RequestStatus.REQUESTED
                (requestedData inst) store).1 with
               data := Json.jobj [("helloWorks",
                 Json.jobj [("instance", instanceToJson inst),
                   ("documentLink", Json.jstr step0.url)])] }) := by
  refine ⟨?_,
    saveDocumentStatus_find account year RequestStatus.REQUESTED (requestedData inst) store,
    (saveDocumentStatus_fst account year RequestStatus.REQUESTED (requestedData inst) store).1,
    (saveDocumentStatus_fst account year RequestStatus.REQUESTED (requestedData inst) store).2,
    ?_⟩
  · simp only [sendHelloWorksUsTaxForm, hcontact, hcreate]
    cases hs : inst.steps with
    | nil => rfl
    | cons s r =>
        cases hm : env.mergeUpdateError with
        | some e2 => rfl
        | none =>
            cases he : env.emailSendError with
            | some e3 => rfl
            | none => rfl
  · intro step0 rest e hsteps hlink hupd hemail
    simp only [sendHelloWorksUsTaxForm, hcontact, hcreate, hsteps, hlink, hupd, hemail]
    rw [find?_updateDoc_const_data account year RequestStatus.REQUESTED (requestedData inst)]
    rw [(saveDocumentStatus_fst account year RequestStatus.REQUESTED (requestedData inst) store).2]
    simp only [requestedData]
    rw [deepMerge_instance_documentLink]

/-- C5 witness: at the concrete link-fetch-failure run, the first write
is the REQUESTED store. -/
theorem sendHelloWorks_requested_before_link_witness :
    (sendHelloWorksUsTaxForm wEnvLinkFail wAccount 2020 [wUser] [] []).writes.head? =
      some (saveDocumentStatus wAccount 2020 RequestStatus.REQUESTED
        (requestedData wInstance) []).2 :=
  (sendHelloWorks_requested_before_link wEnvLinkFail wAccount 2020 [wUser] [] []
    wUser wInstance rfl rfl).1

/-- C5 counterexample: with contact resolved and instance creation
successful, a failure strictly after the link fetch (the email send
throws) does not leave a REQUESTED record: the catch block overwrites
the unique row with status ERROR and an error payload that no longer
holds the instance reference. -/
theorem sendHelloWorks_requested_survival_counterexample :
    (sendHelloWorksUsTaxForm wEnvEmailFail wAccount 2020 [wUser] [] []).store =
      [{ documentType := LegalDocumentType.US_TAX_FORM, year := 2020, CollectiveId := 1,
         requestStatus := RequestStatus.ERROR, data := errorToJson wError,
         isSufficientlyOld := false }] := by
  rfl
